import Mathlib

/-!
Verification of the Document-AI-Hub answering pipeline.

Shallow embedding of the core pipeline code:
  * `app/generation/citation_enforcer.py`  (citation extraction and validation)
  * `app/services/rag_service.py`          (retrieval, mode-aware validation, finalization)
  * `app/metrics/confidence_calculator.py` (multi-factor confidence scoring)
  * `pipeline/query_handler.py`            (standalone consolidated pipeline variant)
  * `app/core/security.py`, `app/services/chat_service.py`, `app/api/rag.py`
    (title encryption paths and the answer endpoint)

Strings are modelled as `List Char`; floats as `ℚ` (Python float literals such
as `0.3`, `0.75` are taken at their decimal value, the standard convention for
a shallow embedding); Python `round(x, n)` is decimal round-half-even.
-/

namespace DocAIHub

abbrev Str := List Char

/-- The Python whitespace class (`\s` in `re`, and the default for
`str.split` / `str.strip`), restricted to ASCII. -/
def pyIsSpace (c : Char) : Bool :=
  c = ' ' || c = '\t' || c = '\n' || c = '\r' || c = '\x0b' || c = '\x0c'

/-- `str.lower()` (ASCII). -/
def lowerStr (s : Str) : Str := s.map Char.toLower

/-- `str.strip()`: remove leading and trailing whitespace. -/
def stripStr (s : Str) : Str :=
  ((s.dropWhile pyIsSpace).reverse.dropWhile pyIsSpace).reverse

/-- `a.startswith(b)` on our string model. -/
def beginsWith : Str → Str → Bool
  | [], _ => true
  | _ :: _, [] => false
  | p :: ps, c :: cs => p = c && beginsWith ps cs

/-- Substring containment, Python `needle in haystack`. -/
def containsSub (haystack needle : Str) : Bool :=
  match haystack with
  | [] => beginsWith needle []
  | _ :: t => beginsWith needle haystack || containsSub t needle

/-- Helper for `str.split()`: `acc` is the current token built in reverse. -/
def splitWsAux (acc : Str) : Str → List Str
  | [] => if acc.isEmpty then [] else [acc.reverse]
  | c :: t =>
    if pyIsSpace c then
      if acc.isEmpty then splitWsAux [] t else acc.reverse :: splitWsAux [] t
    else splitWsAux (c :: acc) t

/-- `str.split()`: split on runs of whitespace, discarding empty tokens. -/
def splitWs (s : Str) : List Str := splitWsAux [] s

/-! ## Python `round(x, n)`: decimal round-half-even on `ℚ` -/

/-- Round a rational to the nearest integer, ties to even (banker's rounding,
as Python `round`). -/
def halfEvenZ (x : ℚ) : ℤ :=
  if x - ⌊x⌋ < 1/2 then ⌊x⌋
  else if 1/2 < x - ⌊x⌋ then ⌊x⌋ + 1
  else if ⌊x⌋ % 2 = 0 then ⌊x⌋ else ⌊x⌋ + 1

/-- Python `round(x, n)` for nonnegative `n` (decimal round-half-even). -/
def pyRound (x : ℚ) (n : ℕ) : ℚ :=
  (halfEvenZ (x * 10 ^ n) : ℚ) / 10 ^ n

/-! ## Citation extraction — `app/generation/citation_enforcer.py`

`validate_citations` extracts citations with
`re.findall(r"[\(\[]\s*(?:Source|Doc|Ref)?\s*(\d+)\s*[\)\]]", answer, re.IGNORECASE)`.
The scanner below implements exactly this pattern.  The pattern is
deterministic up to backtracking that can never rescue a match: the three
literal alternatives start with distinct letters, and dropping a matched
alternative would put `\d+` on a letter, which always fails; `\s*` and `\d+`
are followed by disjoint character classes, so greedy matching is exact. -/

/-- `\s*`: drop a maximal run of whitespace. -/
def dropWs (s : Str) : Str := s.dropWhile pyIsSpace

/-- Match a literal (given lowercase) case-insensitively; return the rest. -/
def matchCI : Str → Str → Option Str
  | [], s => some s
  | _ :: _, [] => none
  | p :: ps, c :: cs => if c.toLower = p then matchCI ps cs else none

/-- The literal `source` (lowercase, for case-insensitive matching). -/
def litSource : Str := "source".data

/-- The literal `doc` (lowercase, for case-insensitive matching). -/
def litDoc : Str := "doc".data

/-- The literal `ref` (lowercase, for case-insensitive matching). -/
def litRef : Str := "ref".data

/-- `(?:Source|Doc|Ref)?` under `re.IGNORECASE`: try each literal in order,
consume it if it matches, else consume nothing. -/
def matchOptMarker (s : Str) : Str :=
  match matchCI litSource s with
  | some r => r
  | none =>
    match matchCI litDoc s with
    | some r => r
    | none =>
      match matchCI litRef s with
      | some r => r
      | none => s

/-- `\d+` (greedy): split off the maximal leading digit run. -/
def takeDigits (s : Str) : Str × Str :=
  (s.takeWhile Char.isDigit, s.dropWhile Char.isDigit)

/-- Attempt the citation pattern at the head of `s`; on success return the
captured digit group and the remainder after the whole match. -/
def tryCite (s : Str) : Option (Str × Str) :=
  match s with
  | [] => none
  | c :: cs =>
    if c = '(' ∨ c = '[' then
      let s1 := matchOptMarker (dropWs cs)
      let s2 := takeDigits (dropWs s1)
      if s2.1 = [] then none
      else
        match dropWs s2.2 with
        | ')' :: r => some (s2.1, r)
        | ']' :: r => some (s2.1, r)
        | _ => none
    else none

/-- `re.findall` scanning loop: try a match at each position, continue after
the end of each match (non-overlapping).  `fuel` bounds the recursion; any
`fuel ≥ s.length` gives the same result since every step consumes a char. -/
def findCitesAux : ℕ → Str → List Str
  | 0, _ => []
  | fuel + 1, s =>
    match tryCite s with
    | some (g, rest) => g :: findCitesAux fuel rest
    | none =>
      match s with
      | [] => []
      | _ :: t => findCitesAux fuel t

/-- All digit groups captured by the citation regex over `answer`. -/
def findCites (s : Str) : List Str := findCitesAux s.length s

/-- `CitationValidationResult` as returned by `validate_citations`. -/
structure CitationVal where
  valid_citations : ℕ
  total_citations : ℕ
  invalid_citations : List Str
  coverage : ℚ
  deriving DecidableEq

/-- A retrieved chunk (`{"id", "text", "meta", "score"}` dict built by
`retrieve_with_scores`). -/
structure Chunk where
  id : Str
  text : Str
  meta : List (Str × Str)
  score : ℚ
  deriving DecidableEq

/-- The f-string `Source {num}` stem. -/
def litSourceSpace : Str := "Source ".data

/-- The f-string `Doc {num}` stem. -/
def litDocSpace : Str := "Doc ".data

/-- The f-string `[Source {num}]` opening. -/
def litBracketSource : Str := "[Source ".data

/-- `validate_citations` from `app/generation/citation_enforcer.py` (lines
7-77).  `doc_id_map` is built by the source but never read afterwards, so it
is omitted.  `list(set(invalid_citations))` deduplicates in unspecified
order; we deduplicate with `List.dedup`; no claim depends on that order. -/
def validate_citations (answer : Str) (retrieved_docs : List Chunk) : CitationVal :=
  let valid_ids : List Str := retrieved_docs.map (fun d => stripStr d.id)
  let found : List Str := findCites answer
  let isValidCite : Str → Bool := fun n =>
    valid_ids.contains n
      || valid_ids.contains (litSourceSpace ++ n)
      || valid_ids.contains (litDocSpace ++ n)
  let valid_count : ℕ := (found.filter isValidCite).length
  let invalid : List Str :=
    (found.filter (fun n => !isValidCite n)).map
      (fun n => litBracketSource ++ n ++ (']' :: []))
  let total : ℕ := found.length
  let cov : ℚ := if total > 0 then (valid_count : ℚ) / total else 0
  { valid_citations := valid_count
    total_citations := total
    invalid_citations := invalid.dedup
    coverage := pyRound cov 2 }

/-! ## Mode-aware acceptance — `app/services/rag_service.py` -/

/-- The fixed refusal phrase list (`rag_service.py` lines 90-95). -/
def refusal_phrases : List Str :=
  ["i could not find the answer".data,
   "i cannot find".data,
   "information is not available".data,
   "not found in the provided documents".data]

/-- `is_refusal_text` (`rag_service.py` lines 98-99):
`answer.lower().strip()` starts with one of the refusal phrases. -/
def is_refusal_text (answer : Str) : Bool :=
  refusal_phrases.any (fun p => beginsWith p (stripStr (lowerStr answer)))

/-- The mode string `academic`. -/
def academicMode : Str := "academic".data

/-- The mode string `general`. -/
def generalMode : Str := "general".data

/-- `validate_answer_citations` (`rag_service.py` lines 76-142): mode-aware
acceptance of an answer, returning `(is_valid, validation_details)`. -/
def validate_answer_citations (answer : Str) (retrieved_docs : List Chunk)
    (mode : Str) : Bool × CitationVal :=
  let cv := validate_citations answer retrieved_docs
  if is_refusal_text answer = true ∧ cv.valid_citations = 0 then
    (true, cv)
  else if mode = academicMode then
    if cv.total_citations = 0 then (false, cv)
    else if cv.coverage < 3/4 then (false, cv)
    else (true, cv)
  else
    if cv.total_citations = 0 then (false, cv)
    else if 1 ≤ cv.valid_citations then (true, cv)
    else if 0 < cv.total_citations ∧ cv.valid_citations = 0 then (false, cv)
    else (true, cv)

/-- The canonical refusal string. -/
def canonical_refusal : Str :=
  "I could not find the answer in the provided documents.".data

/-- The post-generation slice of `answer_query` (`rag_service.py` lines
203-210): validate the generated answer; on rejection replace it with the
canonical refusal and force `coverage = 0`. -/
def finalize_answer (answer : Str) (retrieved_docs : List Chunk)
    (mode : Str) : Str × CitationVal :=
  let r := validate_answer_citations answer retrieved_docs mode
  if r.1 = true then (answer, r.2)
  else (canonical_refusal, { r.2 with coverage := 0 })

/-! ## Confidence scoring — `app/metrics/confidence_calculator.py` -/

/-- `summary_keywords` (`confidence_calculator.py` line 26). -/
def summary_keywords : List Str :=
  ["summarize".data, "summary".data, "overview".data, "brief".data, "detail".data]

/-- `is_summarization` (`confidence_calculator.py` line 27):
`any(w in query.lower() for w in summary_keywords)`. -/
def is_summarization (query : Str) : Bool :=
  summary_keywords.any (fun w => containsSub (lowerStr query) w)

/-- Factor 1, retrieval quality (`confidence_calculator.py` lines 30-39). -/
def retrievalFactor (query : Str) (retrieved_docs : List Chunk) : ℚ :=
  if retrieved_docs ≠ [] then
    if is_summarization query = true then 100
    else
      min ((retrieved_docs.map Chunk.score).sum / retrieved_docs.length * 100) 100
  else 0

/-- Factor 2, citation coverage (`confidence_calculator.py` lines 42-43). -/
def citationFactor (citation_validation : CitationVal) : ℚ :=
  citation_validation.coverage * 100

/-- Factor 3, query-term coverage (`confidence_calculator.py` lines 47-57).
`set(query.lower().split())` is modelled as the deduplicated token list. -/
def queryFactor (query answer : Str) (citation_validation : CitationVal) : ℚ :=
  let query_terms := (splitWs (lowerStr query)).dedup
  let answer_terms := splitWs (lowerStr answer)
  if is_summarization query = true then citationFactor citation_validation
  else
    let inter := (query_terms.filter (fun t => answer_terms.contains t)).length
    (if query_terms ≠ [] then (inter : ℚ) / query_terms.length else 0) * 100

/-- Factor 4, answer depth (`confidence_calculator.py` lines 61-68). -/
def depthFactor (query answer : Str) : ℚ :=
  let answer_words := (splitWs answer).length
  if is_summarization query = true then min ((answer_words : ℚ) / 100 * 100) 100
  else min ((answer_words : ℚ) / 500 * 100) 100

/-- The unrounded weighted sum (`confidence_calculator.py` lines 71-76). -/
def confidenceRaw (query : Str) (retrieved_docs : List Chunk) (answer : Str)
    (citation_validation : CitationVal) : ℚ :=
  0.3 * retrievalFactor query retrieved_docs
    + 0.3 * citationFactor citation_validation
    + 0.2 * queryFactor query answer citation_validation
    + 0.2 * depthFactor query answer

/-- `ConfidenceResult`. -/
structure ConfidenceResult where
  confidence_score : ℚ
  confidence_category : Str
  retrieval_quality : ℚ
  citation_coverage : ℚ
  query_coverage : ℚ
  answer_depth : ℚ
  deriving DecidableEq

/-- The category string `High`. -/
def catHigh : Str := "High".data

/-- The category string `Medium`. -/
def catMedium : Str := "Medium".data

/-- The category string `Low`. -/
def catLow : Str := "Low".data

/-- `calculate_confidence` (`confidence_calculator.py` lines 6-95): weighted
sum of the four factors, categorised before rounding; the reported score and
factors are rounded to one decimal. -/
def calculate_confidence (query : Str) (retrieved_docs : List Chunk)
    (answer : Str) (citation_validation : CitationVal) : ConfidenceResult :=
  let raw := confidenceRaw query retrieved_docs answer citation_validation
  let category := if 75 ≤ raw then catHigh else if 50 ≤ raw then catMedium else catLow
  { confidence_score := pyRound raw 1
    confidence_category := category
    retrieval_quality := pyRound (retrievalFactor query retrieved_docs) 1
    citation_coverage := pyRound (citationFactor citation_validation) 1
    query_coverage := pyRound (queryFactor query answer citation_validation) 1
    answer_depth := pyRound (depthFactor query answer) 1 }

/-! ## Retrieval — `app/services/rag_service.py` lines 19-69

`retrieve_with_scores` embeds the query, builds a `where` filter, queries the
collection, and converts each raw distance `d` to `max(0, 1.0 - d)`.  The
collection client (`col.query`) is an external collaborator; its raw response
is the input here.  The function has no exception handler, so a backend error
propagates (modelled with `Except`). -/

/-- Chunk metadata as stored in the vector index: field-value pairs. -/
abbrev Meta := List (Str × Str)

/-- Chroma `where` filters as built by this code base: equality predicates,
optionally conjoined by `$and` (always binary here). -/
inductive WhereFilter where
  | eqField (field : Str) (value : Str)
  | andBoth (l r : WhereFilter)
  deriving DecidableEq

/-- The metadata field name `user_id`. -/
def fieldUserId : Str := "user_id".data

/-- The metadata field name `file_id`. -/
def fieldFileId : Str := "file_id".data

/-- The `where` filter built by `retrieve_with_scores` (`rag_service.py`
lines 38-42): `{"user_id": user_id}`, wrapped in
`{"$and": [..., {"file_id": file_id}]}` when `file_id` is supplied. -/
def buildWhere (user_id : Str) (file_id : Option Str) : WhereFilter :=
  match file_id with
  | some f => .andBoth (.eqField fieldUserId user_id) (.eqField fieldFileId f)
  | none => .eqField fieldUserId user_id

/-- The `filters` dict passed by `pipeline/query_handler.py`
`retrieve_documents` (line 36 and line 45): `{"file_id": file_id}` only. -/
def queryHandlerFilters (file_id : Str) : WhereFilter :=
  .eqField fieldFileId file_id

/-- First value bound to `field` in the metadata, if any. -/
def metaLookup (field : Str) : Meta → Option Str
  | [] => none
  | (k, v) :: t => if k = field then some v else metaLookup field t

/-- Filter satisfaction: the equality-predicate semantics of the vector
index collaborator (spec section 6: equality predicates, optional AND). -/
def matchesFilter (m : Meta) : WhereFilter → Bool
  | .eqField k v => metaLookup k m = some v
  | .andBoth l r => matchesFilter m l && matchesFilter m r

/-- Distance-to-similarity normalization (`rag_service.py` line 59):
`max(0, 1.0 - dist)`. -/
def simScore (dist : ℚ) : ℚ := max 0 (1 - dist)

/-- Raw response of `col.query` (single query vector, so the inner lists of
`res["ids"][0]`, `res["documents"][0]`, `res["metadatas"][0]`,
`res["distances"][0]` are modelled directly). -/
structure QueryRaw where
  ids : List Str
  documents : List Str
  metadatas : List Meta
  distances : List ℚ
  deriving DecidableEq

/-- The result-building loop of `retrieve_with_scores` (lines 56-67): one
chunk per hit, with `score = round(max(0, 1.0 - dist), 4)`. -/
def buildChunks : List Str → List Str → List Meta → List ℚ → List Chunk
  | i :: is, t :: ts, m :: ms, d :: ds =>
    { id := i, text := t, meta := m, score := pyRound (simScore d) 4 }
      :: buildChunks is ts ms ds
  | _, _, _, _ => []

/-- The `scores` list accumulated by the same loop (unrounded). -/
def buildScores (distances : List ℚ) : List ℚ := distances.map simScore

/-- `retrieve_with_scores` over the collaborator response; no `try/except`
anywhere in the function, so a backend error propagates unchanged. -/
def retrieve_with_scores (backend : Except Str QueryRaw) :
    Except Str (List Chunk × List ℚ) :=
  backend.map (fun raw =>
    (buildChunks raw.ids raw.documents raw.metadatas raw.distances,
     buildScores raw.distances))

/-! ## The retrieval phase of `answer_query` — `rag_service.py` lines 146-179

`answer_query` calls `retrieve_with_scores` (no handler) and, when zero
chunks come back, returns the canonical refusal with `similarity_score = 0`,
`confidence_score = 0`, `confidence_category = "Low"`. -/

/-- Outcome of the retrieval phase: an early refusal response, or the chunks
and scores handed to the generation step. -/
inductive RagOutcome where
  | refusal (answer : Str) (similarity_score confidence_score : ℚ) (category : Str)
  | generate (docs : List Chunk) (scores : List ℚ)
  deriving DecidableEq

/-- The retrieval phase of `answer_query` (`rag_service.py` lines 156-179). -/
def answer_query_retrieval_phase (backend : Except Str QueryRaw) :
    Except Str RagOutcome :=
  match retrieve_with_scores backend with
  | .error e => .error e
  | .ok (docs, scores) =>
    if docs = [] then .ok (.refusal canonical_refusal 0 0 catLow)
    else .ok (.generate docs scores)

/-! ## Session-title encryption — `app/core/security.py`, `app/services/chat_service.py`, `app/api/rag.py`

The Fernet collaborator is modelled symbolically: encrypting wraps a value in
a token constructor; decrypting a token unwraps it; decrypting anything that
is not a token raises, which `decrypt_message` catches and passes the input
through (`security.py` lines 74-86).  `encrypt_message` returns `""`
unchanged (lines 67-72). -/

/-- A stored text value: either plain text or a Fernet token wrapping a
value. -/
inductive MsgText where
  | plain (s : Str)
  | token (m : MsgText)
  deriving DecidableEq

/-- `if not text` in Python: the empty string is falsy. -/
def MsgText.isEmptyText : MsgText → Bool
  | .plain [] => true
  | _ => false

/-- `encrypt_message` (`security.py` lines 67-72): empty input is returned
as-is, otherwise the Fernet collaborator wraps it into a token. -/
def encrypt_message (m : MsgText) : MsgText :=
  if m.isEmptyText then .plain [] else .token m

/-- `decrypt_message` (`security.py` lines 74-86): empty input returned
as-is; a Fernet token decrypts to its content; anything else makes Fernet
raise, caught and passed through. -/
def decrypt_message : MsgText → MsgText
  | .plain s => .plain s
  | .token m => m

/-- The stored title after `create_session` (`chat_service.py` lines 9-25):
encrypted once. -/
def create_session_stored_title (title : MsgText) : MsgText :=
  encrypt_message title

/-- The stored title after the rename endpoint
(`app/api/rag.py` lines 226-232 then `chat_service.update_session_title`,
`chat_service.py` lines 53-62): the endpoint encrypts, and the service
encrypts the already-encrypted value again. -/
def api_rename_stored_title (title : MsgText) : MsgText :=
  encrypt_message (encrypt_message title)

/-- Reading a title back through `GET /rag/history`
(`chat_service.get_user_sessions` decrypts once, `app/api/rag.py` lines
98-112 decrypt again with a passthrough fallback). -/
def read_title_via_history (stored : MsgText) : MsgText :=
  decrypt_message (decrypt_message stored)

/-! ## The answer endpoint — `app/api/rag.py` lines 146-212

`get_rag_answer` wraps its body in `try/except Exception` and re-raises any
exception as `HTTPException(500)`.  The body calls
`answer_query(query=..., user_id=..., file_id=..., mode=...,
chat_history=...)` (lines 178-184), but `answer_query`
(`rag_service.py` line 146) declares only
`(query, user_id, file_id, mode)` and no `**kwargs`, so Python raises
`TypeError` for the unexpected keyword argument on every call. -/

/-- Parameter names accepted by `answer_query` (`rag_service.py` line 146). -/
def answer_query_params : List Str :=
  ["query".data, "user_id".data, "file_id".data, "mode".data]

/-- Keyword arguments supplied by the endpoint call
(`app/api/rag.py` lines 178-184). -/
def rag_answer_call_kwargs : List Str :=
  ["query".data, "user_id".data, "file_id".data, "mode".data,
   "chat_history".data]

/-- Python keyword binding for a function without `**kwargs`: every supplied
keyword must name a declared parameter, otherwise `TypeError`. -/
def kwargsBind (params kwargs : List Str) : Bool :=
  kwargs.all (fun k => params.contains k)

/-- The endpoint outcome as far as the claim needs it: if the body raises
(here: the keyword binding fails), the `except` branch raises
`HTTPException(status_code=500)`; otherwise a well-formed `RagResponse`. -/
def get_rag_answer_outcome : Except ℕ Unit :=
  if kwargsBind answer_query_params rag_answer_call_kwargs then .ok ()
  else .error 500

/-! ## Structured answers in the instructed citation grammar

The dynamic prompts (`rag_service._build_dynamic_prompt`, lines 246-402)
instruct the model to cite retrieved-chunk ids exactly as `[DOC <id>]`.  An
answer in that grammar is a sequence of pieces: free text containing no
opening bracket, and tags `[DOC <id>]` over the retrieved ids. -/

/-- An opening bracket the citation regex can start a match at. -/
def isOpenCh (c : Char) : Bool := c = '(' || c = '['

/-- A closing bracket the citation regex can end a match at. -/
def isCloseCh (c : Char) : Bool := c = ')' || c = ']'

/-- A chunk id that is not a pure digit string (the UUID-style ids of this
system): nonempty by construction (an empty id would be all-digits
vacuously), no whitespace, no brackets, and not all digits. -/
def goodId (id : Str) : Bool :=
  id.all (fun c => !pyIsSpace c && !isOpenCh c && !isCloseCh c)
    && !(id.all Char.isDigit)

/-- One piece of a structured answer. -/
inductive Piece where
  | text (s : Str)
  | tag (id : Str)
  deriving DecidableEq

/-- The tag marker `DOC ` used by the instructed citation format. -/
def litDOCSpace : Str := "DOC ".data

/-- Render one piece: a tag becomes `[DOC <id>]`. -/
def renderPiece : Piece → Str
  | .text s => s
  | .tag id => '[' :: (litDOCSpace ++ id ++ (']' :: []))

/-- Render a structured answer. -/
def renderAnswer (ps : List Piece) : Str := (ps.map renderPiece).flatten

/-- A piece is well formed for a given id list: free text has no opening
bracket, and every tag cites one of the given ids. -/
def pieceOk (ids : List Str) : Piece → Bool
  | .text s => s.all (fun c => !isOpenCh c)
  | .tag id => ids.contains id

/-- A piece the citation scanner cannot start a match in: free text with no
opening bracket, or a tag over a `goodId`. -/
def PieceScannable : Piece → Prop
  | .text s => ∀ c ∈ s, isOpenCh c = false
  | .tag id => goodId id = true

/-- The ten ASCII digits. -/
def digitChars : Str := "0123456789".data

/-! # Theorems

Helper lemmas first, then one theorem per claim (with witnesses and
counterexamples). -/

/-! ## Rounding lemmas -/

theorem halfEvenZ_ge_floor (x : ℚ) : ⌊x⌋ ≤ halfEvenZ x := by
  unfold halfEvenZ; split_ifs <;> omega

theorem halfEvenZ_le_floor_add_one (x : ℚ) : halfEvenZ x ≤ ⌊x⌋ + 1 := by
  unfold halfEvenZ; split_ifs <;> omega

theorem halfEvenZ_of_lt_half {x : ℚ} (h : x - ⌊x⌋ < 1/2) : halfEvenZ x = ⌊x⌋ := by
  unfold halfEvenZ; rw [if_pos h]

theorem halfEvenZ_of_gt_half {x : ℚ} (h : 1/2 < x - ⌊x⌋) : halfEvenZ x = ⌊x⌋ + 1 := by
  unfold halfEvenZ
  rw [if_neg (by linarith), if_pos h]

theorem halfEvenZ_of_tie {x : ℚ} (h : x - ⌊x⌋ = 1/2) :
    halfEvenZ x = if ⌊x⌋ % 2 = 0 then ⌊x⌋ else ⌊x⌋ + 1 := by
  unfold halfEvenZ
  rw [if_neg (by linarith), if_neg (by linarith)]

theorem halfEvenZ_mono {x y : ℚ} (h : x ≤ y) : halfEvenZ x ≤ halfEvenZ y := by
  have hf : ⌊x⌋ ≤ ⌊y⌋ := Int.floor_le_floor h
  rcases lt_or_eq_of_le hf with hlt | heq
  · have h1 := halfEvenZ_le_floor_add_one x
    have h2 := halfEvenZ_ge_floor y
    omega
  · have hfq : ((⌊x⌋ : ℤ) : ℚ) = ((⌊y⌋ : ℤ) : ℚ) := by exact_mod_cast heq
    have hr : x - (⌊x⌋ : ℚ) ≤ y - (⌊y⌋ : ℚ) := by rw [hfq]; linarith
    by_cases hx1 : x - (⌊x⌋ : ℚ) < 1/2
    · rw [halfEvenZ_of_lt_half hx1]
      have := halfEvenZ_ge_floor y
      omega
    · by_cases hy2 : 1/2 < y - (⌊y⌋ : ℚ)
      · rw [halfEvenZ_of_gt_half hy2]
        have := halfEvenZ_le_floor_add_one x
        omega
      · have hx2 : x - (⌊x⌋ : ℚ) = 1/2 := by
          have : 1/2 ≤ x - (⌊x⌋ : ℚ) := le_of_not_lt hx1
          have : x - (⌊x⌋ : ℚ) ≤ 1/2 := le_trans hr (le_of_not_lt hy2)
          linarith [le_of_not_lt hx1]
        have hy1 : y - (⌊y⌋ : ℚ) = 1/2 := by
          have h1 : 1/2 ≤ y - (⌊y⌋ : ℚ) := by rw [← hx2]; exact hr
          linarith [le_of_not_lt hy2]
        rw [halfEvenZ_of_tie hx2, halfEvenZ_of_tie hy1, heq]

theorem pyRound_mono {x y : ℚ} (n : ℕ) (h : x ≤ y) : pyRound x n ≤ pyRound y n := by
  unfold pyRound
  have hs : x * 10 ^ n ≤ y * 10 ^ n :=
    mul_le_mul_of_nonneg_right h (by positivity)
  have hz := halfEvenZ_mono hs
  have hq : ((halfEvenZ (x * 10 ^ n) : ℤ) : ℚ) ≤ ((halfEvenZ (y * 10 ^ n) : ℤ) : ℚ) := by
    exact_mod_cast hz
  rw [div_eq_mul_inv, div_eq_mul_inv]
  exact mul_le_mul_of_nonneg_right hq (by positivity)

theorem halfEvenZ_intCast (k : ℤ) : halfEvenZ (k : ℚ) = k := by
  unfold halfEvenZ
  norm_num

theorem pyRound_natCast (m : ℕ) (n : ℕ) : pyRound (m : ℚ) n = m := by
  unfold pyRound
  have h : ((m : ℚ) * 10 ^ n) = ((m * 10 ^ n : ℤ) : ℚ) := by push_cast; ring
  rw [h, halfEvenZ_intCast]
  push_cast
  field_simp

/-! ## Scanner lemmas

A match attempt can only start at `(` or `[`, and inside a well-formed
`[DOC <id>]` tag over a non-digit-string id every attempt fails. -/

theorem tryCite_not_open {c : Char} (cs : Str) (h : isOpenCh c = false) :
    tryCite (c :: cs) = none := by
  have h1 : ¬(c = '(' ∨ c = '[') := by
    simp only [isOpenCh, Bool.or_eq_false_iff, decide_eq_false_iff_not] at h
    tauto
  simp [tryCite, h1]

theorem findCitesAux_skip_text (p rest : Str) (fuel : ℕ)
    (h : ∀ c ∈ p, isOpenCh c = false) :
    findCitesAux (p.length + fuel) (p ++ rest) = findCitesAux fuel rest := by
  induction p with
  | nil => simp
  | cons c t ih =>
    have hc : isOpenCh c = false := h c (by simp)
    have ht : ∀ x ∈ t, isOpenCh x = false := fun x hx => h x (by simp [hx])
    have hlen : (c :: t).length + fuel = (t.length + fuel) + 1 := by
      simp [List.length_cons]; omega
    rw [hlen, List.cons_append]
    simp only [findCitesAux, tryCite_not_open _ hc]
    exact ih ht

theorem takeDigits_stops {l : Str} (X : Str)
    (hnd : ∃ c ∈ l, Char.isDigit c = false)
    (hall : ∀ c ∈ l, pyIsSpace c = false ∧ isCloseCh c = false) :
    ∃ c0 t, (takeDigits (l ++ X)).2 = c0 :: t ∧
      Char.isDigit c0 = false ∧ pyIsSpace c0 = false ∧ isCloseCh c0 = false := by
  induction l with
  | nil => simp at hnd
  | cons c t ih =>
    by_cases hc : Char.isDigit c = true
    · have hstep : (takeDigits ((c :: t) ++ X)).2 = (takeDigits (t ++ X)).2 := by
        simp [takeDigits, List.dropWhile_cons, hc]
      rw [hstep]
      apply ih
      · rcases hnd with ⟨d, hd, hdnd⟩
        rcases List.mem_cons.mp hd with hdc | hdt
        · exact absurd hc (by rw [← hdc]; simp [hdnd])
        · exact ⟨d, hdt, hdnd⟩
      · exact fun x hx => hall x (List.mem_cons_of_mem _ hx)
    · refine ⟨c, t ++ X, ?_, by simpa using hc,
        (hall c (by simp)).1, (hall c (by simp)).2⟩
      simp [takeDigits, List.dropWhile_cons, hc]

theorem goodId_chars {id : Str} (h : goodId id = true) :
    ∀ c ∈ id, pyIsSpace c = false ∧ isOpenCh c = false ∧ isCloseCh c = false := by
  rw [goodId, Bool.and_eq_true] at h
  have hall := List.all_eq_true.mp h.1
  intro c hc
  have := hall c hc
  simp only [Bool.and_eq_true, Bool.not_eq_true'] at this
  exact ⟨this.1.1, this.1.2, this.2⟩

theorem goodId_exists_nondigit {id : Str} (h : goodId id = true) :
    ∃ c ∈ id, Char.isDigit c = false := by
  rw [goodId, Bool.and_eq_true] at h
  have hnd : id.all Char.isDigit = false := by
    have := h.2
    rwa [Bool.not_eq_true'] at this
  by_contra hcon
  push_neg at hcon
  have hat : id.all Char.isDigit = true := by
    rw [List.all_eq_true]
    intro c hc
    have := hcon c hc
    revert this
    cases Char.isDigit c <;> simp
  rw [hat] at hnd
  exact absurd hnd (by simp)

theorem goodId_ne_nil {id : Str} (h : goodId id = true) : id ≠ [] := by
  intro hnil
  rw [hnil] at h
  simp [goodId] at h

theorem tryCite_lbracket (cs : Str) :
    tryCite ('[' :: cs) =
      (let s1 := matchOptMarker (dropWs cs)
       let s2 := takeDigits (dropWs s1)
       if s2.1 = [] then none
       else match dropWs s2.2 with
         | ')' :: r => some (s2.1, r)
         | ']' :: r => some (s2.1, r)
         | _ => none) := by
  rfl

theorem tryCite_tag {id : Str} (rest : Str) (h : goodId id = true) :
    tryCite (renderPiece (.tag id) ++ rest) = none := by
  have hprops := goodId_chars h
  have hex := goodId_exists_nondigit h
  have hren : renderPiece (Piece.tag id) ++ rest
      = '[' :: ('D' :: 'O' :: 'C' :: ' ' :: (id ++ (']' :: rest))) := by
    simp [renderPiece, litDOCSpace]
  rw [hren, tryCite_lbracket]
  have e2 : matchOptMarker (dropWs ('D' :: 'O' :: 'C' :: ' ' :: (id ++ (']' :: rest))))
      = ' ' :: (id ++ (']' :: rest)) := rfl
  have e3 : dropWs (' ' :: (id ++ (']' :: rest))) = dropWs (id ++ (']' :: rest)) := rfl
  simp only [e2, e3]
  rcases id with _ | ⟨c0, id0⟩
  · exact absurd rfl (goodId_ne_nil h)
  · have hc0 := hprops c0 (by simp)
    have e4 : dropWs ((c0 :: id0) ++ (']' :: rest)) = (c0 :: id0) ++ (']' :: rest) := by
      simp [dropWs, List.dropWhile_cons, hc0.1]
    rw [e4]
    obtain ⟨d0, t, ht, _, hd0s, hd0c⟩ :=
      takeDigits_stops (']' :: rest) hex
        (fun c hc => ⟨(hprops c hc).1, (hprops c hc).2.2⟩)
    by_cases hempty : (takeDigits ((c0 :: id0) ++ (']' :: rest))).1 = []
    · rw [if_pos hempty]
    · rw [if_neg hempty, ht]
      have e5 : dropWs (d0 :: t) = d0 :: t := by
        simp [dropWs, List.dropWhile_cons, hd0s]
      rw [e5]
      split
      · rename_i r heq
        have : d0 = ')' := by injection heq
        rw [this] at hd0c
        simp [isCloseCh] at hd0c
      · rename_i r heq
        have : d0 = ']' := by injection heq
        rw [this] at hd0c
        simp [isCloseCh] at hd0c
      · rfl

theorem findCitesAux_tag {id : Str} (rest : Str) (fuel : ℕ) (h : goodId id = true) :
    findCitesAux ((renderPiece (Piece.tag id)).length + fuel)
      (renderPiece (Piece.tag id) ++ rest) = findCitesAux fuel rest := by
  have hnone : tryCite (renderPiece (Piece.tag id) ++ rest) = none := tryCite_tag rest h
  have hsplit : renderPiece (Piece.tag id) ++ rest
      = '[' :: ((litDOCSpace ++ id ++ (']' :: [])) ++ rest) := by
    simp [renderPiece]
  have hlen : (renderPiece (Piece.tag id)).length + fuel
      = ((litDOCSpace ++ id ++ (']' :: [])).length + fuel) + 1 := by
    simp [renderPiece]
    omega
  rw [hsplit] at hnone
  rw [hlen, hsplit]
  simp only [findCitesAux]
  rw [hnone]
  show findCitesAux ((litDOCSpace ++ id ++ (']' :: [])).length + fuel)
      ((litDOCSpace ++ id ++ (']' :: [])) ++ rest) = findCitesAux fuel rest
  apply findCitesAux_skip_text
  intro c hc
  rcases List.mem_append.mp hc with hc1 | hc1
  · rcases List.mem_append.mp hc1 with hc2 | hc2
    · have : c = 'D' ∨ c = 'O' ∨ c = 'C' ∨ c = ' ' := by
        simpa [litDOCSpace] using hc2
      rcases this with rfl | rfl | rfl | rfl <;> rfl
    · exact (goodId_chars h c hc2).2.1
  · have : c = ']' := by simpa using hc1
    rw [this]
    rfl

theorem findCitesAux_render (ps : List Piece) (rest : Str) (fuel : ℕ)
    (h : ∀ p ∈ ps, PieceScannable p) :
    findCitesAux ((renderAnswer ps).length + fuel) (renderAnswer ps ++ rest)
      = findCitesAux fuel rest := by
  induction ps with
  | nil => simp [renderAnswer]
  | cons p ps ih =>
    have hp := h p (by simp)
    have hps : ∀ q ∈ ps, PieceScannable q := fun q hq => h q (by simp [hq])
    have hra : renderAnswer (p :: ps) = renderPiece p ++ renderAnswer ps := by
      simp [renderAnswer]
    have hlen : (renderAnswer (p :: ps)).length + fuel
        = (renderPiece p).length + ((renderAnswer ps).length + fuel) := by
      rw [hra, List.length_append]
      omega
    rw [hlen, hra, List.append_assoc]
    cases p with
    | text s =>
      have hp' : ∀ c ∈ s, isOpenCh c = false := hp
      rw [show renderPiece (Piece.text s) = s from rfl,
        findCitesAux_skip_text s _ _ hp']
      exact ih hps
    | tag i =>
      have hp' : goodId i = true := hp
      rw [findCitesAux_tag _ _ hp']
      exact ih hps

theorem findCites_render (ps : List Piece) (h : ∀ p ∈ ps, PieceScannable p) :
    findCites (renderAnswer ps) = [] := by
  have main := findCitesAux_render ps [] 0 h
  rw [List.append_nil] at main
  rw [findCites]
  simpa using main

/-! ## Facts about the validators -/

theorem validate_citations_total (a : Str) (docs : List Chunk) :
    (validate_citations a docs).total_citations = (findCites a).length := rfl

theorem validate_answer_citations_snd (a : Str) (docs : List Chunk) (mode : Str) :
    (validate_answer_citations a docs mode).2 = validate_citations a docs := by
  simp only [validate_answer_citations]
  split_ifs <;> rfl

theorem rejected_of_no_citations (a : Str) (docs : List Chunk) (mode : Str)
    (href : is_refusal_text a = false)
    (h0 : (validate_citations a docs).total_citations = 0) :
    (validate_answer_citations a docs mode).1 = false := by
  simp only [validate_answer_citations]
  rw [if_neg (by simp [href])]
  by_cases hm : mode = academicMode
  · rw [if_pos hm, if_pos h0]
  · rw [if_neg hm, if_pos h0]

/-- C1: when the retrieved chunk ids are UUID-style (not pure digit strings)
and a non-refusal answer cites them exactly in the instructed `[DOC <id>]`
form, `validate_citations` extracts zero citations, `validate_answer_citations`
rejects in every mode, and the pipeline replaces the answer with the
canonical refusal (forcing coverage to 0). -/
theorem claim_C1_uuid_tags_reject (ps : List Piece) (docs : List Chunk) (mode : Str)
    (hids : ∀ d ∈ docs, goodId d.id = true)
    (hps : ∀ p ∈ ps, pieceOk (docs.map Chunk.id) p = true)
    (href : is_refusal_text (renderAnswer ps) = false) :
    (validate_citations (renderAnswer ps) docs).total_citations = 0 ∧
    (validate_answer_citations (renderAnswer ps) docs mode).1 = false ∧
    finalize_answer (renderAnswer ps) docs mode
      = (canonical_refusal,
         { validate_citations (renderAnswer ps) docs with coverage := 0 }) := by
  have hscan : ∀ p ∈ ps, PieceScannable p := by
    intro p hp
    have hok := hps p hp
    cases p with
    | text s =>
      show ∀ c ∈ s, isOpenCh c = false
      have hall : ∀ x ∈ s, isOpenCh x = false := by simpa [pieceOk] using hok
      exact hall
    | tag i =>
      show goodId i = true
      have hmem : i ∈ docs.map Chunk.id := by
        simpa [pieceOk] using hok
      obtain ⟨d, hd, hdi⟩ := List.mem_map.mp hmem
      rw [← hdi]
      exact hids d hd
  have h0 : (validate_citations (renderAnswer ps) docs).total_citations = 0 := by
    rw [validate_citations_total, findCites_render ps hscan]
    rfl
  have hrej := rejected_of_no_citations (renderAnswer ps) docs mode href h0
  refine ⟨h0, hrej, ?_⟩
  simp only [finalize_answer]
  rw [if_neg (by rw [hrej]; simp)]
  rw [validate_answer_citations_snd]

/-- C1 witness: a concrete UUID-style id, a concrete answer citing it as
`[DOC <id>]`, general mode. -/
theorem claim_C1_uuid_tags_reject_witness :
    (validate_answer_citations
        (renderAnswer [Piece.text ("X is true ".data),
          Piece.tag ("7a0e43c6-4e1d-44c2-9fed-447bf1981204_3".data),
          Piece.text (".".data)])
        [{ id := "7a0e43c6-4e1d-44c2-9fed-447bf1981204_3".data,
           text := [], meta := [], score := 0 }] generalMode).1 = false :=
  (claim_C1_uuid_tags_reject _ _ _ (by decide) (by decide) (by decide)).2.1

/-- C3: acceptance is mode-aware exactly as claimed: a refusal-starting
answer with zero valid citations is accepted with its validation details
unchanged; otherwise academic mode accepts iff `total_citations > 0` and
`coverage ≥ 0.75`, and every other mode accepts iff `total_citations > 0`
and `valid_citations ≥ 1`. -/
theorem claim_C3_mode_aware_acceptance (answer : Str) (docs : List Chunk) (mode : Str) :
    (validate_answer_citations answer docs mode).2 = validate_citations answer docs ∧
    ((validate_answer_citations answer docs mode).1 = true ↔
      (is_refusal_text answer = true ∧
        (validate_citations answer docs).valid_citations = 0) ∨
      (¬(is_refusal_text answer = true ∧
          (validate_citations answer docs).valid_citations = 0) ∧
        (if mode = academicMode then
          0 < (validate_citations answer docs).total_citations ∧
            3/4 ≤ (validate_citations answer docs).coverage
        else
          0 < (validate_citations answer docs).total_citations ∧
            1 ≤ (validate_citations answer docs).valid_citations))) := by
  refine ⟨validate_answer_citations_snd _ _ _, ?_⟩
  simp only [validate_answer_citations]
  by_cases h1 : is_refusal_text answer = true ∧
      (validate_citations answer docs).valid_citations = 0
  · rw [if_pos h1]
    simp [h1]
  · rw [if_neg h1]
    by_cases h2 : mode = academicMode
    · rw [if_pos h2]
      by_cases h3 : (validate_citations answer docs).total_citations = 0
      · rw [if_pos h3]
        simp [h1, h2, h3]
      · rw [if_neg h3]
        by_cases h4 : (validate_citations answer docs).coverage < 3/4
        · rw [if_pos h4]
          simp [h1, h2, not_le.mpr h4]
        · rw [if_neg h4]
          simp [h1, h2, Nat.pos_of_ne_zero h3, not_lt.mp h4]
    · rw [if_neg h2]
      by_cases h5 : (validate_citations answer docs).total_citations = 0
      · rw [if_pos h5]
        simp [h1, h2, h5]
      · rw [if_neg h5]
        by_cases h6 : 1 ≤ (validate_citations answer docs).valid_citations
        · rw [if_pos h6]
          simp [h1, h2, Nat.pos_of_ne_zero h5, h6]
        · rw [if_neg h6,
            if_pos (⟨Nat.pos_of_ne_zero h5, by omega⟩ :
              0 < (validate_citations answer docs).total_citations ∧
                (validate_citations answer docs).valid_citations = 0)]
          simp [h1, h2, h6]

/-- C3 witness: general mode, one valid citation, substantive answer:
accepted. -/
theorem claim_C3_mode_aware_acceptance_witness :
    (validate_answer_citations ("Fact [Source 2].".data)
      [{ id := "Source 2".data, text := [], meta := [], score := 0 }]
      generalMode).1 = true :=
  (claim_C3_mode_aware_acceptance _ _ _).2.mpr (by decide)

/-! ## C6: digit runs in brackets, of any length, are extracted -/

theorem mem_digits_isDigit {c : Char} (h : c ∈ digitChars) :
    Char.isDigit c = true := by
  have h10 : c = '0' ∨ c = '1' ∨ c = '2' ∨ c = '3' ∨ c = '4' ∨ c = '5'
      ∨ c = '6' ∨ c = '7' ∨ c = '8' ∨ c = '9' := by
    simpa [digitChars] using h
  rcases h10 with rfl|rfl|rfl|rfl|rfl|rfl|rfl|rfl|rfl|rfl <;> rfl

theorem mem_digits_not_space {c : Char} (h : c ∈ digitChars) :
    pyIsSpace c = false := by
  have h10 : c = '0' ∨ c = '1' ∨ c = '2' ∨ c = '3' ∨ c = '4' ∨ c = '5'
      ∨ c = '6' ∨ c = '7' ∨ c = '8' ∨ c = '9' := by
    simpa [digitChars] using h
  rcases h10 with rfl|rfl|rfl|rfl|rfl|rfl|rfl|rfl|rfl|rfl <;> rfl

theorem matchOptMarker_digit {c : Char} (X : Str) (h : c ∈ digitChars) :
    matchOptMarker (c :: X) = c :: X := by
  have h10 : c = '0' ∨ c = '1' ∨ c = '2' ∨ c = '3' ∨ c = '4' ∨ c = '5'
      ∨ c = '6' ∨ c = '7' ∨ c = '8' ∨ c = '9' := by
    simpa [digitChars] using h
  rcases h10 with rfl|rfl|rfl|rfl|rfl|rfl|rfl|rfl|rfl|rfl <;> rfl

theorem takeDigits_all_digits (ds : Str) (r : Str)
    (hd : ∀ c ∈ ds, Char.isDigit c = true) :
    takeDigits (ds ++ (')' :: r)) = (ds, ')' :: r) := by
  induction ds with
  | nil => rfl
  | cons c t ih =>
    have hc : Char.isDigit c = true := hd c (by simp)
    have ht : ∀ x ∈ t, Char.isDigit x = true := fun x hx => hd x (by simp [hx])
    have := ih ht
    simp only [takeDigits] at this ⊢
    simp [List.takeWhile_cons, List.dropWhile_cons, hc, Prod.ext_iff] at this ⊢
    exact this

theorem tryCite_lparen (cs : Str) :
    tryCite ('(' :: cs) =
      (let s1 := matchOptMarker (dropWs cs)
       let s2 := takeDigits (dropWs s1)
       if s2.1 = [] then none
       else match dropWs s2.2 with
         | ')' :: r => some (s2.1, r)
         | ']' :: r => some (s2.1, r)
         | _ => none) := by
  rfl

theorem findCitesAux_nil (k : ℕ) : findCitesAux k [] = [] := by
  cases k <;> rfl

theorem findCitesAux_step {s g rest : Str} (k : ℕ)
    (h : tryCite s = some (g, rest)) :
    findCitesAux (k + 1) s = g :: findCitesAux k rest := by
  simp only [findCitesAux, h]

theorem findCites_paren_digits (ds : Str) (hne : ds ≠ [])
    (hdig : ∀ c ∈ ds, c ∈ digitChars) :
    findCites ('(' :: (ds ++ (')' :: []))) = [ds] := by
  rcases ds with _ | ⟨d, ds'⟩
  · exact absurd rfl hne
  · have hd := hdig d (by simp)
    have hdigAll : ∀ c ∈ d :: ds', Char.isDigit c = true :=
      fun c hc => mem_digits_isDigit (hdig c hc)
    have htry : tryCite ('(' :: ((d :: ds') ++ (')' :: []))) = some (d :: ds', []) := by
      rw [tryCite_lparen]
      have e1 : dropWs ((d :: ds') ++ (')' :: [])) = (d :: ds') ++ (')' :: []) := by
        simp [dropWs, List.dropWhile_cons, mem_digits_not_space hd]
      have e2 : matchOptMarker ((d :: ds') ++ (')' :: []))
          = (d :: ds') ++ (')' :: []) := by
        rw [List.cons_append]
        exact matchOptMarker_digit _ hd
      simp only [e1, e2]
      rw [takeDigits_all_digits _ _ hdigAll]
      rw [if_neg (by simp)]
      rfl
    have hlen : ('(' :: ((d :: ds') ++ (')' :: []))).length
        = ((d :: ds').length + 1) + 1 := by
      simp
    rw [findCites, hlen, findCitesAux_step _ htry, findCitesAux_nil]

/-- C6 counterexample: the 4-digit token `(2025)` IS extracted as a
citation by `validate_citations` (`total_citations = 1`, not `0` as the
claim requires). -/
theorem claim_C6_counterexample :
    (validate_citations ("(2025)".data) []).total_citations = 1 ∧
    ¬ (validate_citations ("(2025)".data) []).total_citations = 0 := by
  decide

/-- C6 amended: citation parsing applies NO digit-count ceiling: any
bracketed run of one or more digits — including 4-digit tokens such as
`(2025)` — is extracted and counts toward `total_citations`. -/
theorem claim_C6_digit_runs_extracted (ds : Str) (docs : List Chunk)
    (hne : ds ≠ []) (hdig : ∀ c ∈ ds, c ∈ digitChars) :
    (validate_citations ('(' :: (ds ++ (')' :: []))) docs).total_citations = 1 := by
  rw [validate_citations_total, findCites_paren_digits ds hne hdig]
  rfl

/-- C6 amended witness: `(2025)` against an empty retrieval set. -/
theorem claim_C6_digit_runs_extracted_witness :
    (validate_citations ('(' :: ("2025".data ++ (')' :: []))) []).total_citations = 1 :=
  claim_C6_digit_runs_extracted _ _ (by decide) (by decide)

/-- C7: whenever citation validation rejects an answer, the pipeline
replaces it with the canonical refusal string
`I could not find the answer in the provided documents.` and forces the
reported coverage to 0. -/
theorem claim_C7_rejection_refusal (answer : Str) (docs : List Chunk) (mode : Str)
    (h : (validate_answer_citations answer docs mode).1 = false) :
    (finalize_answer answer docs mode).1 = canonical_refusal ∧
    (finalize_answer answer docs mode).2.coverage = 0 := by
  simp only [finalize_answer]
  rw [if_neg (by rw [h]; simp)]
  exact ⟨rfl, rfl⟩

/-- C7 witness: an uncited substantive answer in general mode is rejected
and replaced. -/
theorem claim_C7_rejection_refusal_witness :
    (finalize_answer ("Blah.".data) [] generalMode).1 = canonical_refusal ∧
    (finalize_answer ("Blah.".data) [] generalMode).2.coverage = 0 :=
  claim_C7_rejection_refusal _ _ _ (by decide)

/-- C2: the claim fails on the code.  `get_rag_answer` passes
`chat_history=` to `answer_query`, which declares no such parameter and no
`**kwargs`, so the keyword binding fails (Python `TypeError`), the
endpoint's `except Exception` branch fires, and every request to the answer
endpoint receives `HTTPException(500)` instead of a well-formed response. -/
theorem claim_C2_endpoint_raises_500 :
    kwargsBind answer_query_params rag_answer_call_kwargs = false ∧
    get_rag_answer_outcome = Except.error 500 := by
  constructor
  · decide
  · rfl

/-- C10 counterexample: the rename path applies encryption twice, not
exactly once — the stored value is not singly encrypted, and one decryption
does not recover the title. -/
theorem claim_C10_counterexample :
    api_rename_stored_title (MsgText.plain ("A".data))
        ≠ encrypt_message (MsgText.plain ("A".data)) ∧
    decrypt_message (api_rename_stored_title (MsgText.plain ("A".data)))
        ≠ MsgText.plain ("A".data) := by
  decide

/-- C10 amended: the rename path encrypts twice (endpoint and service) and
the history read path decrypts twice (with a passthrough fallback), so the
composition is still symmetric: a title set by create or rename reads back
unchanged, and a legacy plaintext title decodes to itself. -/
theorem claim_C10_title_round_trip (s : Str) :
    read_title_via_history (create_session_stored_title (MsgText.plain s))
        = MsgText.plain s ∧
    read_title_via_history (api_rename_stored_title (MsgText.plain s))
        = MsgText.plain s ∧
    read_title_via_history (MsgText.plain s) = MsgText.plain s := by
  rcases s with _ | ⟨c, t⟩ <;>
    simp [read_title_via_history, create_session_stored_title,
      api_rename_stored_title, encrypt_message, decrypt_message,
      MsgText.isEmptyText]

/-- C5 counterexample: the filter built by
`pipeline/query_handler.retrieve_documents` constrains only `file_id`; a
chunk owned by a different user satisfies it, so this retrieval call's
filter does not require owner equality. -/
theorem claim_C5_counterexample :
    matchesFilter [(fieldUserId, ("other".data)), (fieldFileId, ("f1".data))]
      (queryHandlerFilters ("f1".data)) = true ∧
    metaLookup fieldUserId
        [(fieldUserId, ("other".data)), (fieldFileId, ("f1".data))]
      ≠ some ("alice".data) := by
  decide

/-- C5 amended: the serving path (`rag_service.retrieve_with_scores`)
builds a filter requiring `user_id` equality, AND-ed with `file_id`
equality when a document id is supplied, so only chunks of the requesting
owner (and of the requested document, when scoped) satisfy the filter; the
standalone `pipeline/query_handler.py` variant filters by `file_id` only. -/
theorem claim_C5_owner_scoped (user_id : Str) (file_id : Option Str) (m : Meta)
    (h : matchesFilter m (buildWhere user_id file_id) = true) :
    metaLookup fieldUserId m = some user_id ∧
    (∀ f, file_id = some f → metaLookup fieldFileId m = some f) := by
  cases file_id with
  | none =>
    simp only [buildWhere, matchesFilter, decide_eq_true_eq] at h
    exact ⟨h, fun f hf => Option.noConfusion hf⟩
  | some f0 =>
    simp only [buildWhere, matchesFilter, Bool.and_eq_true,
      decide_eq_true_eq] at h
    refine ⟨h.1, fun f hf => ?_⟩
    cases hf
    exact h.2

/-- C5 witness: a chunk with the caller's owner id and the requested file
id satisfies the scoped filter and is attributed to that owner. -/
theorem claim_C5_owner_scoped_witness :
    metaLookup fieldUserId
        [(fieldUserId, ("alice".data)), (fieldFileId, ("f1".data))]
      = some ("alice".data) :=
  (claim_C5_owner_scoped ("alice".data) (some ("f1".data)) _ (by decide)).1

/-- C8 counterexample: a retrieval/backend error is not caught anywhere in
the answer pipeline; it propagates as an error instead of degrading to the
empty-result refusal path. -/
theorem claim_C8_counterexample :
    answer_query_retrieval_phase (Except.error ("backend down".data))
        = Except.error ("backend down".data) ∧
    answer_query_retrieval_phase (Except.error ("backend down".data))
        ≠ Except.ok (RagOutcome.refusal canonical_refusal 0 0 catLow) :=
  ⟨rfl, fun h => Except.noConfusion h⟩

/-- C8 amended: a successful retrieval with zero chunks returns exactly the
canonical refusal with `confidence_score = 0` and category `Low`; a backend
error propagates out of the pipeline unchanged (no handler exists on the
answer path). -/
theorem claim_C8_empty_retrieval_refusal (backend : Except Str QueryRaw) :
    (∀ raw, backend = Except.ok raw →
      buildChunks raw.ids raw.documents raw.metadatas raw.distances = [] →
      answer_query_retrieval_phase backend
        = Except.ok (RagOutcome.refusal canonical_refusal 0 0 catLow)) ∧
    (∀ e, backend = Except.error e →
      answer_query_retrieval_phase backend = Except.error e) := by
  constructor
  · intro raw hb hempty
    subst hb
    simp [answer_query_retrieval_phase, retrieve_with_scores, Except.map, hempty]
  · intro e hb
    subst hb
    rfl

/-- C8 witness: an empty backend response yields the refusal outcome. -/
theorem claim_C8_empty_retrieval_refusal_witness :
    answer_query_retrieval_phase (Except.ok ⟨[], [], [], []⟩)
      = Except.ok (RagOutcome.refusal canonical_refusal 0 0 catLow) :=
  (claim_C8_empty_retrieval_refusal _).1 ⟨[], [], [], []⟩ rfl rfl

/-! ## C9: similarity normalization and score ordering -/

theorem simScore_antitone {d1 d2 : ℚ} (h : d1 ≤ d2) :
    simScore d2 ≤ simScore d1 := by
  simp only [simScore]
  exact max_le_max le_rfl (by linarith)

theorem buildScores_non_increasing (dists : List ℚ)
    (h : dists.Pairwise (· ≤ ·)) :
    (buildScores dists).Pairwise (fun a b => b ≤ a) := by
  unfold buildScores
  rw [List.pairwise_map]
  exact h.imp (fun hab => simScore_antitone hab)

theorem mem_buildChunks {is ts : List Str} {ms : List Meta} {ds : List ℚ}
    {c : Chunk} (h : c ∈ buildChunks is ts ms ds) :
    ∃ d ∈ ds, c.score = pyRound (simScore d) 4 := by
  induction ds generalizing is ts ms with
  | nil =>
    exfalso
    cases is <;> cases ts <;> cases ms <;> simp [buildChunks] at h
  | cons d ds ih =>
    cases is with
    | nil => simp [buildChunks] at h
    | cons i is =>
      cases ts with
      | nil => simp [buildChunks] at h
      | cons t ts =>
        cases ms with
        | nil => simp [buildChunks] at h
        | cons m ms =>
          simp only [buildChunks, List.mem_cons] at h
          rcases h with hc | hc
          · exact ⟨d, by simp, by rw [hc]⟩
          · obtain ⟨d1, hd1, hs⟩ := ih hc
            exact ⟨d1, by simp [hd1], hs⟩

theorem buildChunks_score_non_increasing (is ts : List Str) (ms : List Meta)
    (ds : List ℚ) (h : ds.Pairwise (· ≤ ·)) :
    (buildChunks is ts ms ds).Pairwise (fun a b => b.score ≤ a.score) := by
  induction ds generalizing is ts ms with
  | nil =>
    cases is <;> cases ts <;> cases ms <;> simp [buildChunks]
  | cons d ds ih =>
    cases is with
    | nil => simp [buildChunks]
    | cons i is =>
      cases ts with
      | nil => simp [buildChunks]
      | cons t ts =>
        cases ms with
        | nil => simp [buildChunks]
        | cons m ms =>
          simp only [buildChunks]
          rw [List.pairwise_cons]
          rw [List.pairwise_cons] at h
          constructor
          · intro c hc
            obtain ⟨d1, hd1, hs⟩ := mem_buildChunks hc
            rw [hs]
            exact pyRound_mono 4 (simScore_antitone (h.1 d1 hd1))
          · exact ih is ts ms h.2

/-- C9: the normalization `max(0, 1 - dist)` is monotonically decreasing,
and when the vector index returns hits ranked by non-decreasing distance
(its ranked-hits contract), both the returned `scores` list and the scores
of the returned chunk list are monotonically non-increasing — the chunk
list is in descending-score order, and since no reordering occurs, ties
keep original index order. -/
theorem claim_C9_scores_non_increasing (raw : QueryRaw)
    (hranked : raw.distances.Pairwise (· ≤ ·)) :
    (∀ d1 d2 : ℚ, d1 ≤ d2 → simScore d2 ≤ simScore d1) ∧
    (buildScores raw.distances).Pairwise (fun a b => b ≤ a) ∧
    ((buildChunks raw.ids raw.documents raw.metadatas raw.distances).map
        Chunk.score).Pairwise (fun a b => b ≤ a) := by
  refine ⟨fun d1 d2 h => simScore_antitone h,
    buildScores_non_increasing _ hranked, ?_⟩
  rw [List.pairwise_map]
  exact buildChunks_score_non_increasing _ _ _ _ hranked

/-- C9 witness: a concrete ranked response with distances `0, 1, 2`. -/
theorem claim_C9_scores_non_increasing_witness :
    (buildScores [0, 1, 2]).Pairwise (fun a b => b ≤ a) :=
  (claim_C9_scores_non_increasing ⟨[], [], [], [0, 1, 2]⟩
    (by norm_num [List.pairwise_cons])).2.1

/-! ## C4: confidence score bounds and category boundaries -/

theorem retrievalFactor_bounds (query : Str) (docs : List Chunk)
    (hs : ∀ d ∈ docs, 0 ≤ d.score) :
    0 ≤ retrievalFactor query docs ∧ retrievalFactor query docs ≤ 100 := by
  unfold retrievalFactor
  split_ifs with h1 h2
  · norm_num
  · have hsum : 0 ≤ (docs.map Chunk.score).sum := by
      apply List.sum_nonneg
      intro x hx
      obtain ⟨d, hd, rfl⟩ := List.mem_map.mp hx
      exact hs d hd
    have h0 : (0:ℚ) ≤ (docs.map Chunk.score).sum / docs.length * 100 := by
      apply mul_nonneg _ (by norm_num)
      exact div_nonneg hsum (by positivity)
    exact ⟨le_min h0 (by norm_num), min_le_right _ _⟩
  · norm_num

theorem citationFactor_bounds (cv : CitationVal)
    (hc0 : 0 ≤ cv.coverage) (hc1 : cv.coverage ≤ 1) :
    0 ≤ citationFactor cv ∧ citationFactor cv ≤ 100 := by
  unfold citationFactor
  constructor <;> nlinarith

theorem queryFactor_bounds (query answer : Str) (cv : CitationVal)
    (hc0 : 0 ≤ cv.coverage) (hc1 : cv.coverage ≤ 1) :
    0 ≤ queryFactor query answer cv ∧ queryFactor query answer cv ≤ 100 := by
  simp only [queryFactor]
  split_ifs with h1 h2
  · exact citationFactor_bounds cv hc0 hc1
  · have hlenpos : (0:ℚ) < ((splitWs (lowerStr query)).dedup).length := by
      have := List.length_pos.mpr h2
      exact_mod_cast this
    have hle : (((splitWs (lowerStr query)).dedup.filter
          (fun t => (splitWs (lowerStr answer)).contains t)).length : ℚ)
        ≤ ((splitWs (lowerStr query)).dedup).length := by
      exact_mod_cast List.length_filter_le _ _
    constructor
    · apply mul_nonneg _ (by norm_num)
      exact div_nonneg (by positivity) (le_of_lt hlenpos)
    · have hd1 : (((splitWs (lowerStr query)).dedup.filter
            (fun t => (splitWs (lowerStr answer)).contains t)).length : ℚ)
          / ((splitWs (lowerStr query)).dedup).length ≤ 1 :=
        (div_le_one hlenpos).mpr hle
      nlinarith
  · norm_num

theorem depthFactor_bounds (query answer : Str) :
    0 ≤ depthFactor query answer ∧ depthFactor query answer ≤ 100 := by
  unfold depthFactor
  split_ifs <;>
    exact ⟨le_min (by positivity) (by norm_num), min_le_right _ _⟩

theorem confidenceRaw_bounds (query : Str) (docs : List Chunk) (answer : Str)
    (cv : CitationVal) (hs : ∀ d ∈ docs, 0 ≤ d.score)
    (hc0 : 0 ≤ cv.coverage) (hc1 : cv.coverage ≤ 1) :
    0 ≤ confidenceRaw query docs answer cv ∧
      confidenceRaw query docs answer cv ≤ 100 := by
  obtain ⟨hr0, hr1⟩ := retrievalFactor_bounds query docs hs
  obtain ⟨hb0, hb1⟩ := citationFactor_bounds cv hc0 hc1
  obtain ⟨hq0, hq1⟩ := queryFactor_bounds query answer cv hc0 hc1
  obtain ⟨hd0, hd1⟩ := depthFactor_bounds query answer
  have hraw : confidenceRaw query docs answer cv
      = 3/10 * retrievalFactor query docs + 3/10 * citationFactor cv
        + 1/5 * queryFactor query answer cv + 1/5 * depthFactor query answer := by
    norm_num [confidenceRaw]
  rw [hraw]
  constructor <;> linarith

/-- C4 counterexample: the claimed cap at 95 does not exist in the code — a
summarization query with full coverage, one retrieved chunk and a 100-word
answer yields `confidence_score = 100 > 95`. -/
theorem claim_C4_counterexample :
    (calculate_confidence ("summarize".data)
        [{ id := ("d1".data), text := [], meta := [], score := 0 }]
        ((List.replicate 100 ('w' :: ' ' :: [])).flatten)
        { valid_citations := 1, total_citations := 1,
          invalid_citations := [], coverage := 1 }).confidence_score = 100 ∧
    ¬ ((calculate_confidence ("summarize".data)
        [{ id := ("d1".data), text := [], meta := [], score := 0 }]
        ((List.replicate 100 ('w' :: ' ' :: [])).flatten)
        { valid_citations := 1, total_citations := 1,
          invalid_citations := [], coverage := 1 }).confidence_score ≤ 95) := by
  have hsum : is_summarization ("summarize".data) = true := by decide
  have hw : (splitWs ((List.replicate 100 ('w' :: ' ' :: [])).flatten)).length
      = 100 := by decide
  have hret : retrievalFactor ("summarize".data)
      [{ id := ("d1".data), text := [], meta := [], score := 0 }] = 100 := by
    simp [retrievalFactor, hsum]
  have hcit : citationFactor
      { valid_citations := 1, total_citations := 1,
        invalid_citations := [], coverage := 1 } = 100 := by
    norm_num [citationFactor]
  have hq : queryFactor ("summarize".data)
      ((List.replicate 100 ('w' :: ' ' :: [])).flatten)
      { valid_citations := 1, total_citations := 1,
        invalid_citations := [], coverage := 1 } = 100 := by
    simp only [queryFactor, hsum, if_true]
    exact hcit
  have hd : depthFactor ("summarize".data)
      ((List.replicate 100 ('w' :: ' ' :: [])).flatten) = 100 := by
    simp only [depthFactor, hsum, if_true, hw]
    norm_num
  have hraw : confidenceRaw ("summarize".data)
      [{ id := ("d1".data), text := [], meta := [], score := 0 }]
      ((List.replicate 100 ('w' :: ' ' :: [])).flatten)
      { valid_citations := 1, total_citations := 1,
        invalid_citations := [], coverage := 1 } = 100 := by
    simp only [confidenceRaw, hret, hcit, hq, hd]
    norm_num
  have key : (calculate_confidence ("summarize".data)
      [{ id := ("d1".data), text := [], meta := [], score := 0 }]
      ((List.replicate 100 ('w' :: ' ' :: [])).flatten)
      { valid_citations := 1, total_citations := 1,
        invalid_citations := [], coverage := 1 }).confidence_score = 100 := by
    show pyRound (confidenceRaw ("summarize".data)
        [{ id := ("d1".data), text := [], meta := [], score := 0 }]
        ((List.replicate 100 ('w' :: ' ' :: [])).flatten)
        { valid_citations := 1, total_citations := 1,
          invalid_citations := [], coverage := 1 }) 1 = 100
    rw [hraw]
    have := pyRound_natCast 100 1
    simpa using this
  refine ⟨key, ?_⟩
  rw [key]
  norm_num

/-- C4 amended: for chunk scores `≥ 0` and coverage in `[0,1]` (the ranges
the pipeline produces), the weighted sum lies in `[0,100]` — the cap is 100,
not 95 — and so does the reported score (its rounding to one decimal); the
category boundaries on the unrounded sum are exact: `≥ 75` High,
`50 ≤ · < 75` Medium, `< 50` Low. -/
theorem claim_C4_score_bounds (query : Str) (docs : List Chunk) (answer : Str)
    (cv : CitationVal) (hs : ∀ d ∈ docs, 0 ≤ d.score)
    (hc0 : 0 ≤ cv.coverage) (hc1 : cv.coverage ≤ 1) :
    (0 ≤ confidenceRaw query docs answer cv ∧
      confidenceRaw query docs answer cv ≤ 100) ∧
    (0 ≤ (calculate_confidence query docs answer cv).confidence_score ∧
      (calculate_confidence query docs answer cv).confidence_score ≤ 100) ∧
    ((calculate_confidence query docs answer cv).confidence_category = catHigh
      ↔ 75 ≤ confidenceRaw query docs answer cv) ∧
    ((calculate_confidence query docs answer cv).confidence_category = catMedium
      ↔ 50 ≤ confidenceRaw query docs answer cv ∧
          confidenceRaw query docs answer cv < 75) ∧
    ((calculate_confidence query docs answer cv).confidence_category = catLow
      ↔ confidenceRaw query docs answer cv < 50) := by
  obtain ⟨hr0, hr1⟩ := confidenceRaw_bounds query docs answer cv hs hc0 hc1
  have hround0 : pyRound 0 1 = 0 := by
    have := pyRound_natCast 0 1
    simpa using this
  have hround100 : pyRound 100 1 = 100 := by
    have := pyRound_natCast 100 1
    simpa using this
  have hsc : (calculate_confidence query docs answer cv).confidence_score
      = pyRound (confidenceRaw query docs answer cv) 1 := rfl
  have hcat : (calculate_confidence query docs answer cv).confidence_category
      = (if 75 ≤ confidenceRaw query docs answer cv then catHigh
         else if 50 ≤ confidenceRaw query docs answer cv then catMedium
         else catLow) := rfl
  refine ⟨⟨hr0, hr1⟩, ⟨?_, ?_⟩, ?_, ?_, ?_⟩
  · rw [hsc, ← hround0]
    exact pyRound_mono 1 hr0
  · rw [hsc, ← hround100]
    exact pyRound_mono 1 hr1
  · rw [hcat]
    by_cases h75 : 75 ≤ confidenceRaw query docs answer cv
    · rw [if_pos h75]
      simp [h75]
    · rw [if_neg h75]
      split_ifs with h50 <;> simp [h75] <;> decide
  · rw [hcat]
    by_cases h75 : 75 ≤ confidenceRaw query docs answer cv
    · rw [if_pos h75]
      constructor
      · intro hcontra
        exact absurd hcontra (by decide)
      · intro hc
        exact absurd h75 (not_le.mpr hc.2)
    · rw [if_neg h75]
      by_cases h50 : 50 ≤ confidenceRaw query docs answer cv
      · rw [if_pos h50]
        simp [h50, not_le.mp h75]
      · rw [if_neg h50]
        constructor
        · intro hcontra
          exact absurd hcontra (by decide)
        · intro hc
          exact absurd hc.1 h50
  · rw [hcat]
    by_cases h75 : 75 ≤ confidenceRaw query docs answer cv
    · rw [if_pos h75]
      constructor
      · intro hcontra
        exact absurd hcontra (by decide)
      · intro hc
        linarith
    · rw [if_neg h75]
      by_cases h50 : 50 ≤ confidenceRaw query docs answer cv
      · rw [if_pos h50]
        constructor
        · intro hcontra
          exact absurd hcontra (by decide)
        · intro hc
          linarith
      · rw [if_neg h50]
        simp [not_le.mp h50]

/-- C4 witness: an empty retrieval with zero coverage scores 0 and is Low. -/
theorem claim_C4_score_bounds_witness :
    0 ≤ confidenceRaw ("q".data) [] []
        { valid_citations := 0, total_citations := 0,
          invalid_citations := [], coverage := 0 } ∧
      confidenceRaw ("q".data) [] []
        { valid_citations := 0, total_citations := 0,
          invalid_citations := [], coverage := 0 } ≤ 100 :=
  (claim_C4_score_bounds ("q".data) [] []
    { valid_citations := 0, total_citations := 0,
      invalid_citations := [], coverage := 0 }
    (by intro d hd; cases hd) (by norm_num) (by norm_num)).1

end DocAIHub
